import Mathlib

/-!
Verification of the GreenPe prototype accounting and marketplace engine
(`src/src/greenpay.jsx`).  The component's numeric state is embedded as exact
rationals; JavaScript's `Number.prototype.toFixed n` (round to `n` decimal
places, ties to the larger value) is embedded as `roundTo n`, built on
Mathlib's `round` (which also rounds half up).  Each React state variable
becomes a field of `LedgerState` and each handler becomes a pure function on
that state.  The deferred settlement scheduled by `buyOrder` through
`setTimeout` is embedded as an explicit queue of `Settlement` records: the
callback closes over `order`, `buyer`, `total`, `paymentId` and the `user`
value of the render that created it, so those five captures are exactly the
fields of `Settlement`, and firing the timer is the `settle` function.
-/

/-- JS `x.toFixed n` on exact rationals: round `x` to `n` decimal places,
ties going up, as a rational again (the source immediately converts the
string back to a number with unary `+`). -/
def roundTo (n : ℕ) (q : ℚ) : ℚ := ((round (q * 10 ^ n) : ℤ) : ℚ) / 10 ^ n

/-- `q` is exactly representable with `n` decimal places. -/
def isDecimal (n : ℕ) (q : ℚ) : Prop := roundTo n q = q

/-- `round` is monotone (used for both the ℚ ledger and the ℝ score). -/
theorem round_mono_of_le {α : Type*} [LinearOrderedField α] [FloorRing α]
    {x y : α} (h : x ≤ y) : round x ≤ round y := by
  rw [round_eq, round_eq]
  exact Int.floor_le_floor (by linarith)

theorem roundTo_mono {a b : ℚ} (n : ℕ) (h : a ≤ b) : roundTo n a ≤ roundTo n b := by
  have hp : (0 : ℚ) < 10 ^ n := by positivity
  have h1 : round (a * 10 ^ n) ≤ round (b * 10 ^ n) :=
    round_mono_of_le (mul_le_mul_of_nonneg_right h hp.le)
  unfold roundTo
  gcongr

theorem roundTo_zero (n : ℕ) : roundTo n 0 = 0 := by
  simp [roundTo]

theorem roundTo_nonneg {q : ℚ} (n : ℕ) (h : 0 ≤ q) : 0 ≤ roundTo n q := by
  have h2 := roundTo_mono n h
  rwa [roundTo_zero] at h2

/-- A rational that is an integer multiple of `10 ^ (-n)` rounds to itself. -/
theorem roundTo_self_of_int {n : ℕ} {q : ℚ} (z : ℤ) (hz : (z : ℚ) = q * 10 ^ n) :
    roundTo n q = q := by
  have hp : (10 : ℚ) ^ n ≠ 0 := by positivity
  unfold roundTo
  rw [← hz, round_intCast, hz]
  field_simp

theorem int_of_isDecimal {n : ℕ} {q : ℚ} (h : isDecimal n q) :
    ((round (q * 10 ^ n) : ℤ) : ℚ) = q * 10 ^ n := by
  have hp : (10 : ℚ) ^ n ≠ 0 := by positivity
  unfold isDecimal roundTo at h
  rw [div_eq_iff hp] at h
  exact h

/-- Adding an exact `n`-decimal value commutes with rounding to `n` places:
this is why `+(b + x).toFixed(n)` adds exactly `+x.toFixed(n)` to a balance
`b` that is already an `n`-decimal value. -/
theorem roundTo_add_left {n : ℕ} {b : ℚ} (hb : isDecimal n b) (x : ℚ) :
    roundTo n (b + x) = b + roundTo n x := by
  have hp : (10 : ℚ) ^ n ≠ 0 := by positivity
  have hz := int_of_isDecimal hb
  unfold roundTo
  have hexp : (b + x) * 10 ^ n = ((round (b * 10 ^ n) : ℤ) : ℚ) + x * 10 ^ n := by
    rw [hz]; ring
  rw [hexp, round_int_add]
  push_cast
  rw [add_div, hz]
  field_simp

theorem isDecimal_roundTo (n : ℕ) (q : ℚ) : isDecimal n (roundTo n q) := by
  apply roundTo_self_of_int (round (q * 10 ^ n))
  unfold roundTo
  field_simp

theorem isDecimal_add {n : ℕ} {a b : ℚ} (ha : isDecimal n a) (hb : isDecimal n b) :
    isDecimal n (a + b) := by
  unfold isDecimal at hb ⊢
  rw [roundTo_add_left ha b, hb]

theorem isDecimal_neg {n : ℕ} {b : ℚ} (hb : isDecimal n b) : isDecimal n (-b) := by
  apply roundTo_self_of_int (-(round (b * 10 ^ n)))
  push_cast
  rw [int_of_isDecimal hb]
  ring

theorem isDecimal_sub {n : ℕ} {a b : ℚ} (ha : isDecimal n a) (hb : isDecimal n b) :
    isDecimal n (a - b) := by
  have h2 := isDecimal_add ha (isDecimal_neg hb)
  rwa [← sub_eq_add_neg] at h2

/-- The onboarded user (`{name, energyId, aadhaarHash, gstin}` in the source;
`aadhaarHash` is `null` when no Aadhaar digits were supplied). -/
structure User where
  name : String
  energyId : String
  aadhaarHash : Option String
  gstin : String
deriving DecidableEq

/-- A sell order of the order book (`{id, seller, rec, pricePerREC, createdAt}`). -/
structure Order where
  id : String
  seller : String
  recAmount : ℚ
  pricePerREC : ℚ
  createdAt : Nat
deriving DecidableEq

/-- A trade-history record created by `buyOrder`. -/
structure Trade where
  id : String
  orderId : String
  buyer : String
  seller : String
  recAmount : ℚ
  pricePerREC : ℚ
  total : ℚ
  paymentId : String
  timestamp : Nat
deriving DecidableEq

/-- The `generator` block of a certificate. -/
structure Generator where
  energyId : String
  aadhaar_hash : Option String
  gstin : String
deriving DecidableEq

/-- The `compliance` block of a certificate. -/
structure Compliance where
  eu_cbam : Bool
  generatedAt : Nat
deriving DecidableEq

/-- A Green Impact Certificate as built by `generateGIC`. -/
structure GIC where
  gicId : String
  issuer : String
  totalRec : ℚ
  totalCarbonKg : ℚ
  generator : Generator
  compliance : Compliance
deriving DecidableEq

/-- One deferred settlement scheduled by `buyOrder`: the values the
`setTimeout` callback closed over, including the `user` of the purchase-time
render (`userAtPurchase`). -/
structure Settlement where
  order : Order
  buyer : String
  total : ℚ
  paymentId : String
  userAtPurchase : Option User
deriving DecidableEq

/-- The component's mutable state: one field per React `useState` cell the
engine touches, plus the queue of scheduled settlements. -/
structure LedgerState where
  user : Option User
  kwhTotal : ℚ
  lastReading : ℚ
  recBalance : ℚ
  carbonKg : ℚ
  inrBalance : ℚ
  orders : List Order
  tradeHistory : List Trade
  gics : List GIC
  pending : List Settlement
deriving DecidableEq

/-- The initial render: nothing onboarded, all balances zero. -/
def initialState : LedgerState :=
  { user := none, kwhTotal := 0, lastReading := 0, recBalance := 0, carbonKg := 0,
    inrBalance := 0, orders := [], tradeHistory := [], gics := [], pending := [] }

/-- A user notice surfaced through `alert` (validation failures and
settlement confirmations). -/
inductive Notice where
  | validationError (msg : String)
  | settled (paymentId : String) (total : ℚ)
deriving DecidableEq

/-- `aadhaarHash` from the source: `hash_` plus the last four characters, or
`null` for the empty string. -/
def aadhaarHash (aadhaar : String) : Option String :=
  if aadhaar = "" then none else some ("hash_" ++ aadhaar.takeRight 4)

/-- `createEnergyId`: strip non-alphanumerics, lower-case, append the domain. -/
def createEnergyId (name : String) : String :=
  String.mk ((name.toList.filter Char.isAlphanum).map Char.toLower) ++ "@greenpe"

/-- `handleOnboard` with the two documented defaults. -/
def handleOnboard (name aadhaar gstin : String) (s : LedgerState) : LedgerState :=
  let name2 := if name = "" then "user" else name
  let aadhaar2 := if aadhaar = "" then "0000" else aadhaar
  { s with user := some ⟨name2, createEnergyId name2, aadhaarHash aadhaar2, gstin⟩ }

/-- The per-tick credit delta: `+(kwh * 0.001).toFixed(6)`. -/
def recDeltaForKwh (kwh : ℚ) : ℚ := roundTo 6 (kwh * (1 / 1000))

/-- The per-tick carbon delta: `+(kwh * 0.8).toFixed(3)`. -/
def carbonDeltaForKwh (kwh : ℚ) : ℚ := roundTo 3 (kwh * (4 / 5))

/-- `mintTokensForKwh`: accumulate both deltas, re-rounding each balance. -/
def mintTokensForKwh (kwh : ℚ) (s : LedgerState) : LedgerState :=
  { s with recBalance := roundTo 6 (s.recBalance + recDeltaForKwh kwh),
           carbonKg := roundTo 3 (s.carbonKg + carbonDeltaForKwh kwh) }

/-- One meter tick: the sampled kWh value is rounded to 3 places, recorded as
the last reading, accumulated into the 3-decimal running total, and minted. -/
def meterTick (sample : ℚ) (s : LedgerState) : LedgerState :=
  let tick := roundTo 3 sample
  mintTokensForKwh tick
    { s with lastReading := tick, kwhTotal := roundTo 3 (s.kwhTotal + tick) }

/-- `placeSellOrder`: validate, then prepend the order and debit the
reservation.  Rejections leave the state untouched and only raise a notice. -/
def placeSellOrder (placeRECs placePrice : ℚ) (now : Nat) (s : LedgerState) :
    LedgerState × Option Notice :=
  match s.user with
  | none => (s, some (.validationError "Please onboard first"))
  | some u =>
    if placeRECs ≤ 0 ∨ s.recBalance < placeRECs then
      (s, some (.validationError "Invalid REC amount"))
    else
      let order : Order :=
        ⟨"ORD-" ++ toString now, u.energyId, roundTo 6 placeRECs, placePrice, now⟩
      ({ s with orders := order :: s.orders,
                recBalance := roundTo 6 (s.recBalance - order.recAmount) }, none)

/-- `buyOrder`, synchronous part: build the trade, prepend it to the history,
drop the order from the book, and schedule the deferred settlement.  The
buyer falls back to `anonymous@greenpe` when nobody is onboarded. -/
def buyOrder (order : Order) (now : Nat) (s : LedgerState) : LedgerState :=
  let paymentId := "UPI-" ++ toString now
  let total := roundTo 2 (order.recAmount * order.pricePerREC)
  let buyer := match s.user with
    | some u => u.energyId
    | none => "anonymous@greenpe"
  let trade : Trade :=
    ⟨"TRADE-" ++ toString now, order.id, buyer, order.seller, order.recAmount,
      order.pricePerREC, total, paymentId, now⟩
  { s with tradeHistory := trade :: s.tradeHistory,
           orders := s.orders.filter (fun x => x.id != order.id),
           pending := s.pending ++ [⟨order, buyer, total, paymentId, s.user⟩] }

/-- The energy id the settlement callback compares against:
`user && user.energyId` for the captured `user`. -/
def activeEnergyId (u : Option User) : Option String := u.map User.energyId

/-- First settlement check: if the captured user is the order's seller,
credit INR proceeds less the 1% fee, re-rounded to 2 places. -/
def settleSellerLeg (p : Settlement) (s : LedgerState) : LedgerState :=
  if activeEnergyId p.userAtPurchase = some p.order.seller then
    { s with inrBalance := roundTo 2 (s.inrBalance + p.total * (99 / 100)) }
  else s

/-- Second settlement check: if the captured user is the buyer, credit the
RECs, re-rounded to 6 places. -/
def settleBuyerLeg (p : Settlement) (s : LedgerState) : LedgerState :=
  if activeEnergyId p.userAtPurchase = some p.buyer then
    { s with recBalance := roundTo 6 (s.recBalance + p.order.recAmount) }
  else s

/-- The deferred settlement body: both checks, in source order. -/
def settle (p : Settlement) (s : LedgerState) : LedgerState :=
  settleBuyerLeg p (settleSellerLeg p s)

/-- `generateGIC`: reject when nobody is onboarded, else snapshot the rounded
balances into a certificate and prepend it. -/
def generateGIC (now : Nat) (s : LedgerState) : LedgerState × Option Notice :=
  match s.user with
  | none => (s, some (.validationError "Onboard to generate GIC"))
  | some u =>
    let gic : GIC :=
      ⟨"GIC-" ++ toString now, "GreenPe:CERTv1", roundTo 6 s.recBalance,
        roundTo 3 s.carbonKg,
        ⟨u.energyId, u.aadhaarHash, if u.gstin = "" then "NA" else u.gstin⟩,
        ⟨true, now⟩⟩
    ({ s with gics := gic :: s.gics }, none)

/-- The meter panel's Reset button: zero the total, the REC balance and the
carbon counter. -/
def resetMeter (s : LedgerState) : LedgerState :=
  { s with kwhTotal := 0, recBalance := 0, carbonKg := 0 }

/-- The Simulate Subsidy quick action: add 500 INR, no rounding. -/
def simulateSubsidy (s : LedgerState) : LedgerState :=
  { s with inrBalance := s.inrBalance + 500 }

/-- The certificate panel's Clear button. -/
def clearGics (s : LedgerState) : LedgerState := { s with gics := [] }

/-- The GreenScore effect: `min(1000, round(log(1 + kwhTotal) * 200 +
recBalance * 50))`, a pure function of its two inputs. -/
noncomputable def greenScoreOf (kwhTotal recBalance : ℝ) : ℤ :=
  min 1000 (round (Real.log (1 + kwhTotal) * 200 + recBalance * 50))

theorem settleSellerLeg_recBalance (p : Settlement) (s : LedgerState) :
    (settleSellerLeg p s).recBalance = s.recBalance := by
  unfold settleSellerLeg
  split <;> rfl

theorem settleBuyerLeg_inrBalance (p : Settlement) (s : LedgerState) :
    (settleBuyerLeg p s).inrBalance = s.inrBalance := by
  unfold settleBuyerLeg
  split <;> rfl

/-- Fixture matching the first seeded order of the demo order book. -/
def ord1 : Order := ⟨"ORD-1", "weaver_tirupur@greenpe", 1 / 2, 5200, 0⟩

/-- Fixture matching the second seeded order of the demo order book. -/
def ord2 : Order := ⟨"ORD-2", "farmer_nashik@greenpe", 1 / 5, 4800, 0⟩

/-- A state seeded with the two demo orders, nobody onboarded yet. -/
def sSeed : LedgerState := { initialState with orders := [ord1, ord2] }

/-- C1: for an order in the book, the synchronous part of `buyOrder` removes
the order from the book (so no later `buyOrder` can match it again) and puts
a trade with its `orderId` and `total = roundTo 2 (rec * pricePerREC)` at the
head of the trade history, while both balances are still untouched — the
settlement has not yet applied. -/
theorem C1_matched_order_removed_before_settlement (order : Order) (now : Nat)
    (s : LedgerState) (_horder : order ∈ s.orders) :
    (∀ o2 ∈ (buyOrder order now s).orders, o2.id ≠ order.id) ∧
    (∃ t, (buyOrder order now s).tradeHistory = t :: s.tradeHistory ∧
       t.orderId = order.id ∧
       t.total = roundTo 2 (order.recAmount * order.pricePerREC)) ∧
    (buyOrder order now s).recBalance = s.recBalance ∧
    (buyOrder order now s).inrBalance = s.inrBalance := by
  refine ⟨?_, ⟨_, rfl, rfl, rfl⟩, rfl, rfl⟩
  intro o2 ho2
  have h2 : o2 ∈ s.orders.filter (fun x => x.id != order.id) := ho2
  rw [List.mem_filter] at h2
  simpa using h2.2

theorem C1_witness :
    (∀ o2 ∈ (buyOrder ord1 7 sSeed).orders, o2.id ≠ ord1.id) ∧
    (∃ t, (buyOrder ord1 7 sSeed).tradeHistory = t :: sSeed.tradeHistory ∧
       t.orderId = ord1.id ∧
       t.total = roundTo 2 (ord1.recAmount * ord1.pricePerREC)) ∧
    (buyOrder ord1 7 sSeed).recBalance = sSeed.recBalance ∧
    (buyOrder ord1 7 sSeed).inrBalance = sSeed.inrBalance :=
  C1_matched_order_removed_before_settlement ord1 7 sSeed (by simp [sSeed, initialState])

/-- C3: `placeSellOrder` raises a notice exactly when nobody is onboarded,
the amount is nonpositive, or the amount exceeds the REC balance; every such
notice is a validation error and leaves the state unchanged. -/
theorem C3_placeSellOrder_validation (amt price : ℚ) (now : Nat) (s : LedgerState) :
    ((placeSellOrder amt price now s).2 ≠ none ↔
      s.user = none ∨ amt ≤ 0 ∨ s.recBalance < amt) ∧
    ((placeSellOrder amt price now s).2 ≠ none → (placeSellOrder amt price now s).1 = s) ∧
    (∀ nt, (placeSellOrder amt price now s).2 = some nt →
       ∃ msg, nt = Notice.validationError msg) := by
  cases hu : s.user with
  | none => simp [placeSellOrder, hu]
  | some u =>
    by_cases hc : amt ≤ 0 ∨ s.recBalance < amt
    · simp [placeSellOrder, hu, hc]
    · simp [placeSellOrder, hu, hc]

/-- C5: each meter tick mints `roundTo 6 (kwh * 0.001)` credits and
`roundTo 3 (kwh * 0.8)` kg of carbon, and each balance is re-rounded to its
own precision after accumulation. -/
theorem C5_mint_deltas_and_accumulation (kwh : ℚ) (s : LedgerState) (_h : 0 ≤ kwh) :
    recDeltaForKwh kwh = roundTo 6 (kwh * (1 / 1000)) ∧
    carbonDeltaForKwh kwh = roundTo 3 (kwh * (4 / 5)) ∧
    (mintTokensForKwh kwh s).recBalance = roundTo 6 (s.recBalance + recDeltaForKwh kwh) ∧
    (mintTokensForKwh kwh s).carbonKg = roundTo 3 (s.carbonKg + carbonDeltaForKwh kwh) :=
  ⟨rfl, rfl, rfl, rfl⟩

theorem C5_witness :
    recDeltaForKwh 3 = roundTo 6 (3 * (1 / 1000)) ∧
    carbonDeltaForKwh 3 = roundTo 3 (3 * (4 / 5)) ∧
    (mintTokensForKwh 3 initialState).recBalance =
      roundTo 6 (initialState.recBalance + recDeltaForKwh 3) ∧
    (mintTokensForKwh 3 initialState).carbonKg =
      roundTo 3 (initialState.carbonKg + carbonDeltaForKwh 3) :=
  C5_mint_deltas_and_accumulation 3 initialState (by norm_num)

/-- C10: with nobody onboarded, `buyOrder` still succeeds — the trade is
recorded with buyer `anonymous@greenpe` and the order is removed — and the
scheduled settlement credits nothing, because both identity checks compare
against the user captured at purchase time, which was `none`. -/
theorem C10_anonymous_purchase (order : Order) (now : Nat) (s : LedgerState)
    (hu : s.user = none) :
    (∃ t, (buyOrder order now s).tradeHistory = t :: s.tradeHistory ∧
       t.buyer = "anonymous@greenpe") ∧
    (∀ o2 ∈ (buyOrder order now s).orders, o2.id ≠ order.id) ∧
    (∃ p, (buyOrder order now s).pending = s.pending ++ [p] ∧
       ∀ s2, settle p s2 = s2) := by
  refine ⟨?_, ?_, ?_⟩
  · refine ⟨_, rfl, ?_⟩
    show (match s.user with
      | some u => u.energyId
      | none => "anonymous@greenpe") = "anonymous@greenpe"
    rw [hu]
  · intro o2 ho2
    have h2 : o2 ∈ s.orders.filter (fun x => x.id != order.id) := ho2
    rw [List.mem_filter] at h2
    simpa using h2.2
  · refine ⟨⟨order, _, roundTo 2 (order.recAmount * order.pricePerREC),
      "UPI-" ++ toString now, s.user⟩, rfl, ?_⟩
    intro s2
    simp [settle, settleBuyerLeg, settleSellerLeg, activeEnergyId, hu]

theorem C10_witness :
    (∃ t, (buyOrder ord1 7 sSeed).tradeHistory = t :: sSeed.tradeHistory ∧
       t.buyer = "anonymous@greenpe") ∧
    (∀ o2 ∈ (buyOrder ord1 7 sSeed).orders, o2.id ≠ ord1.id) ∧
    (∃ p, (buyOrder ord1 7 sSeed).pending = sSeed.pending ++ [p] ∧
       ∀ s2, settle p s2 = s2) :=
  C10_anonymous_purchase ord1 7 sSeed rfl

/-- C6: the GreenScore is `min 1000 (round (log (1 + kwh) * 200 + rec * 50))`,
a pure function of its two inputs, monotone when either input grows from a
non-negative starting point, and never above 1000. -/
theorem C6_greenScore_monotone_and_capped (k1 k2 r1 r2 : ℝ)
    (hk1 : 0 ≤ k1) (_hr1 : 0 ≤ r1) (hk : k1 ≤ k2) (hr : r1 ≤ r2) :
    greenScoreOf k1 r1 ≤ greenScoreOf k2 r2 ∧ greenScoreOf k1 r1 ≤ 1000 := by
  constructor
  · have hlog : Real.log (1 + k1) ≤ Real.log (1 + k2) :=
      Real.log_le_log (by linarith) (by linarith)
    have harg : Real.log (1 + k1) * 200 + r1 * 50 ≤
        Real.log (1 + k2) * 200 + r2 * 50 := by nlinarith
    exact min_le_min (le_refl 1000) (round_mono_of_le harg)
  · exact min_le_left _ _

theorem C6_witness :
    greenScoreOf 0 0 ≤ greenScoreOf 1 2 ∧ greenScoreOf 0 0 ≤ 1000 :=
  C6_greenScore_monotone_and_capped 0 1 0 2 le_rfl le_rfl (by norm_num) (by norm_num)

/-- C7: certificate issuance fails with a validation error and no state
change when nobody is onboarded; otherwise it prepends a certificate
snapshotting the 6-decimal-rounded REC balance and 3-decimal-rounded carbon
counter, with the fixed issuer label, the account's identity fields
(`NA` for an empty GSTIN), an unconditional `eu_cbam := true` flag and the
issuance timestamp. -/
theorem C7_generateGIC_certificate (now : Nat) (s : LedgerState) :
    (s.user = none → (generateGIC now s).1 = s ∧
       ∃ msg, (generateGIC now s).2 = some (Notice.validationError msg)) ∧
    (∀ u, s.user = some u →
       (generateGIC now s).2 = none ∧
       ∃ g, (generateGIC now s).1.gics = g :: s.gics ∧
         g.totalRec = roundTo 6 s.recBalance ∧
         g.totalCarbonKg = roundTo 3 s.carbonKg ∧
         g.issuer = "GreenPe:CERTv1" ∧
         g.generator.energyId = u.energyId ∧
         g.generator.aadhaar_hash = u.aadhaarHash ∧
         g.generator.gstin = (if u.gstin = "" then "NA" else u.gstin) ∧
         g.compliance.eu_cbam = true ∧
         g.compliance.generatedAt = now) := by
  constructor
  · intro hu
    simp [generateGIC, hu]
  · intro u hu
    refine ⟨?_, ?_⟩
    · simp [generateGIC, hu]
    · refine ⟨⟨"GIC-" ++ toString now, "GreenPe:CERTv1", roundTo 6 s.recBalance,
        roundTo 3 s.carbonKg,
        ⟨u.energyId, u.aadhaarHash, if u.gstin = "" then "NA" else u.gstin⟩,
        ⟨true, now⟩⟩, ?_, rfl, rfl, rfl, rfl, rfl, rfl, rfl, rfl⟩
      show (generateGIC now s).1.gics = _
      simp [generateGIC, hu]

/-- The account used by the concrete certificate example. -/
def uC7 : User := ⟨"Asha", "asha@greenpe", some "hash_5678", ""⟩

/-- The concrete state of the spec's certificate example:
`creditBalance = 1.234567`, `carbonOffsetKg = 9.8765`. -/
def sC7 : LedgerState :=
  { initialState with user := some uC7, recBalance := 1234567 / 1000000,
                      carbonKg := 98765 / 10000 }

theorem C7_witness :
    roundTo 6 sC7.recBalance = 1234567 / 1000000 ∧
    roundTo 3 sC7.carbonKg = 9877 / 1000 ∧
    ((sC7.user = none → (generateGIC 5 sC7).1 = sC7 ∧
       ∃ msg, (generateGIC 5 sC7).2 = some (Notice.validationError msg)) ∧
     (∀ u, sC7.user = some u →
       (generateGIC 5 sC7).2 = none ∧
       ∃ g, (generateGIC 5 sC7).1.gics = g :: sC7.gics ∧
         g.totalRec = roundTo 6 sC7.recBalance ∧
         g.totalCarbonKg = roundTo 3 sC7.carbonKg ∧
         g.issuer = "GreenPe:CERTv1" ∧
         g.generator.energyId = u.energyId ∧
         g.generator.aadhaar_hash = u.aadhaarHash ∧
         g.generator.gstin = (if u.gstin = "" then "NA" else u.gstin) ∧
         g.compliance.eu_cbam = true ∧
         g.compliance.generatedAt = 5)) :=
  ⟨by norm_num [sC7, initialState, roundTo, round_eq],
   by norm_num [sC7, initialState, roundTo, round_eq],
   C7_generateGIC_certificate 5 sC7⟩

/-- C2: when a deferred settlement fires against balances in their maintained
precision (INR at 2 decimals, RECs at 6, the order amount at 6): a captured
user matching the order's seller gains exactly `roundTo 2 (total * 0.99)`
INR, a captured user matching the buyer gains exactly the order's REC
amount, and in a self-trade both credits land in the same settlement. -/
theorem C2_settlement_credits (p : Settlement) (s : LedgerState)
    (hinr : isDecimal 2 s.inrBalance) (hrec : isDecimal 6 s.recBalance)
    (hord : isDecimal 6 p.order.recAmount) :
    (activeEnergyId p.userAtPurchase = some p.order.seller →
      (settle p s).inrBalance = s.inrBalance + roundTo 2 (p.total * (99 / 100))) ∧
    (activeEnergyId p.userAtPurchase = some p.buyer →
      (settle p s).recBalance = s.recBalance + p.order.recAmount) ∧
    (activeEnergyId p.userAtPurchase = some p.order.seller →
     activeEnergyId p.userAtPurchase = some p.buyer →
      (settle p s).inrBalance = s.inrBalance + roundTo 2 (p.total * (99 / 100)) ∧
      (settle p s).recBalance = s.recBalance + p.order.recAmount) := by
  have key2 : roundTo 2 (s.inrBalance + p.total * (99 / 100)) =
      s.inrBalance + roundTo 2 (p.total * (99 / 100)) := roundTo_add_left hinr _
  have hord' : roundTo 6 p.order.recAmount = p.order.recAmount := hord
  have key6 : roundTo 6 (s.recBalance + p.order.recAmount) =
      s.recBalance + p.order.recAmount := by
    rw [roundTo_add_left hrec, hord']
  have hinrEq : ∀ h1 : activeEnergyId p.userAtPurchase = some p.order.seller,
      (settle p s).inrBalance = s.inrBalance + roundTo 2 (p.total * (99 / 100)) := by
    intro h1
    rw [settle, settleBuyerLeg_inrBalance, settleSellerLeg, if_pos h1]
    simpa using key2
  have hrecEq : ∀ h2 : activeEnergyId p.userAtPurchase = some p.buyer,
      (settle p s).recBalance = s.recBalance + p.order.recAmount := by
    intro h2
    rw [settle, settleBuyerLeg, if_pos h2, settleSellerLeg_recBalance]
    · simpa [settleSellerLeg_recBalance] using key6
  exact ⟨hinrEq, hrecEq, fun h1 h2 => ⟨hinrEq h1, hrecEq h2⟩⟩

/-- The self-trading account of the spec's worked settlement example. -/
def uC2 : User := ⟨"a", "a@greenpe", some "hash_0000", ""⟩

/-- The state right after the example's reservation: `creditBalance = 0.2`. -/
def sC2 : LedgerState :=
  { initialState with user := some uC2, recBalance := 1 / 5 }

/-- The example's scheduled settlement: self-trade of `0.3 REC @ 5000`,
`total = 1500`. -/
def pC2 : Settlement :=
  ⟨⟨"ORD-9", "a@greenpe", 3 / 10, 5000, 0⟩, "a@greenpe", 1500, "UPI-1", some uC2⟩

theorem C2_witness :
    (activeEnergyId pC2.userAtPurchase = some pC2.order.seller →
      (settle pC2 sC2).inrBalance = sC2.inrBalance + roundTo 2 (pC2.total * (99 / 100))) ∧
    (activeEnergyId pC2.userAtPurchase = some pC2.buyer →
      (settle pC2 sC2).recBalance = sC2.recBalance + pC2.order.recAmount) ∧
    (activeEnergyId pC2.userAtPurchase = some pC2.order.seller →
     activeEnergyId pC2.userAtPurchase = some pC2.buyer →
      (settle pC2 sC2).inrBalance = sC2.inrBalance + roundTo 2 (pC2.total * (99 / 100)) ∧
      (settle pC2 sC2).recBalance = sC2.recBalance + pC2.order.recAmount) :=
  C2_settlement_credits pC2 sC2
    (by norm_num [sC2, initialState, isDecimal, roundTo, round_eq])
    (by norm_num [sC2, initialState, isDecimal, roundTo, round_eq])
    (by norm_num [pC2, isDecimal, roundTo, round_eq])

/-- The onboarded account used to exercise `placeSellOrder`. -/
def uC4 : User := ⟨"Ravi", "ravi@greenpe", some "hash_1234", ""⟩

/-- A state with one credit available to sell. -/
def sC4 : LedgerState := { initialState with user := some uC4, recBalance := 1 }

/-- C4 as stated is false: for `amt = 10⁻⁷` (positive, within the balance,
but not a 6-decimal value) the order succeeds yet reserves the 6-decimal
rounding of `amt`, which is `0` — the balance does not decrease by `amt` and
the new head order is not for `amt` credits. -/
theorem C4_counterexample :
    sC4.user ≠ none ∧ 0 < (1 / 10000000 : ℚ) ∧ (1 / 10000000 : ℚ) ≤ sC4.recBalance ∧
    (placeSellOrder (1 / 10000000) 5000 3 sC4).2 = none ∧
    (placeSellOrder (1 / 10000000) 5000 3 sC4).1.recBalance ≠
      sC4.recBalance - 1 / 10000000 ∧
    (∀ o ∈ (placeSellOrder (1 / 10000000) 5000 3 sC4).1.orders,
      o.recAmount ≠ 1 / 10000000) := by
  refine ⟨by simp [sC4, initialState], ?_⟩
  norm_num [sC4, uC4, initialState, placeSellOrder, roundTo, round_eq]

/-- C4 amended: when the onboarded seller's balance and the requested amount
are exact 6-decimal values (as every balance the system maintains is) with
`0 < amt ≤ creditBalance`, `placeSellOrder` succeeds, debits exactly `amt`,
and prepends an order for `amt` credits at the given price. -/
theorem C4_reservation_amended (amt price : ℚ) (now : Nat) (s : LedgerState) (u : User)
    (hu : s.user = some u) (hbal : isDecimal 6 s.recBalance) (hamt : isDecimal 6 amt)
    (h0 : 0 < amt) (hle : amt ≤ s.recBalance) :
    (placeSellOrder amt price now s).2 = none ∧
    (placeSellOrder amt price now s).1.recBalance = s.recBalance - amt ∧
    ∃ o, (placeSellOrder amt price now s).1.orders = o :: s.orders ∧
      o.recAmount = amt ∧ o.pricePerREC = price ∧ o.seller = u.energyId := by
  have hcond : ¬(amt ≤ 0 ∨ s.recBalance < amt) := by
    push_neg
    exact ⟨h0, hle⟩
  have hamt' : roundTo 6 amt = amt := hamt
  have hsub : roundTo 6 (s.recBalance - amt) = s.recBalance - amt := isDecimal_sub hbal hamt
  refine ⟨?_, ?_, ⟨⟨"ORD-" ++ toString now, u.energyId, roundTo 6 amt, price, now⟩,
    ?_, hamt', rfl, rfl⟩⟩
  · simp [placeSellOrder, hu, hcond]
  · have h1 : (placeSellOrder amt price now s).1.recBalance =
        roundTo 6 (s.recBalance - roundTo 6 amt) := by
      simp [placeSellOrder, hu, hcond]
    rw [h1, hamt']
    exact hsub
  · simp [placeSellOrder, hu, hcond]

theorem C4_witness :
    (placeSellOrder (3 / 10) 5000 3 sC4).2 = none ∧
    (placeSellOrder (3 / 10) 5000 3 sC4).1.recBalance = sC4.recBalance - 3 / 10 ∧
    ∃ o, (placeSellOrder (3 / 10) 5000 3 sC4).1.orders = o :: sC4.orders ∧
      o.recAmount = 3 / 10 ∧ o.pricePerREC = 5000 ∧ o.seller = uC4.energyId :=
  C4_reservation_amended (3 / 10) 5000 3 sC4 uC4 rfl
    (by norm_num [sC4, initialState, isDecimal, roundTo, round_eq])
    (by norm_num [isDecimal, roundTo, round_eq])
    (by norm_num) (by norm_num [sC4, initialState])

theorem placeSellOrder_fixed_fields (amt price : ℚ) (now : Nat) (s : LedgerState) :
    (placeSellOrder amt price now s).1.kwhTotal = s.kwhTotal ∧
    (placeSellOrder amt price now s).1.carbonKg = s.carbonKg ∧
    (placeSellOrder amt price now s).1.inrBalance = s.inrBalance := by
  cases hu : s.user with
  | none => simp [placeSellOrder, hu]
  | some u =>
    by_cases hc : amt ≤ 0 ∨ s.recBalance < amt <;> simp [placeSellOrder, hu, hc]

theorem generateGIC_fixed_fields (now : Nat) (s : LedgerState) :
    (generateGIC now s).1.kwhTotal = s.kwhTotal ∧
    (generateGIC now s).1.carbonKg = s.carbonKg ∧
    (generateGIC now s).1.recBalance = s.recBalance ∧
    (generateGIC now s).1.inrBalance = s.inrBalance := by
  cases hu : s.user with
  | none => simp [generateGIC, hu]
  | some u => simp [generateGIC, hu]

theorem settleSellerLeg_kwh_carbon (p : Settlement) (s : LedgerState) :
    (settleSellerLeg p s).kwhTotal = s.kwhTotal ∧
    (settleSellerLeg p s).carbonKg = s.carbonKg := by
  unfold settleSellerLeg
  split <;> exact ⟨rfl, rfl⟩

theorem settleBuyerLeg_kwh_carbon (p : Settlement) (s : LedgerState) :
    (settleBuyerLeg p s).kwhTotal = s.kwhTotal ∧
    (settleBuyerLeg p s).carbonKg = s.carbonKg := by
  unfold settleBuyerLeg
  split <;> exact ⟨rfl, rfl⟩

theorem mint_carbonKg_mono {s : LedgerState} (hc : isDecimal 3 s.carbonKg)
    {kwh : ℚ} (hkwh : 0 ≤ kwh) : s.carbonKg ≤ (mintTokensForKwh kwh s).carbonKg := by
  have hδ : 0 ≤ carbonDeltaForKwh kwh :=
    roundTo_nonneg _ (mul_nonneg hkwh (by norm_num))
  calc s.carbonKg ≤ s.carbonKg + roundTo 3 (carbonDeltaForKwh kwh) :=
        le_add_of_nonneg_right (roundTo_nonneg _ hδ)
    _ = roundTo 3 (s.carbonKg + carbonDeltaForKwh kwh) := (roundTo_add_left hc _).symm
    _ = (mintTokensForKwh kwh s).carbonKg := rfl

/-- A state with some accumulated generation and carbon, used to exercise
the Reset button. -/
def sC8 : LedgerState := { initialState with kwhTotal := 2, carbonKg := 1 }

/-- C8 as stated is false: the meter panel's Reset button strictly decreases
both `energyTotalKwh` and `carbonOffsetKg` (it zeroes them). -/
theorem C8_counterexample :
    (resetMeter sC8).kwhTotal < sC8.kwhTotal ∧
    (resetMeter sC8).carbonKg < sC8.carbonKg := by
  norm_num [resetMeter, sC8, initialState]

/-- C8 amended: apart from the Reset button — which sets `kwhTotal`,
`recBalance` and `carbonKg` to zero — no operation decreases `kwhTotal` or
`carbonKg` (balances being in their maintained 3-decimal precision, and
meter inputs non-negative). -/
theorem C8_monotone_except_reset (s : LedgerState)
    (hk : isDecimal 3 s.kwhTotal) (hc : isDecimal 3 s.carbonKg) :
    (∀ kwh, 0 ≤ kwh → s.kwhTotal ≤ (mintTokensForKwh kwh s).kwhTotal ∧
       s.carbonKg ≤ (mintTokensForKwh kwh s).carbonKg) ∧
    (∀ sample, 0 ≤ sample → s.kwhTotal ≤ (meterTick sample s).kwhTotal ∧
       s.carbonKg ≤ (meterTick sample s).carbonKg) ∧
    (∀ amt price now, s.kwhTotal ≤ (placeSellOrder amt price now s).1.kwhTotal ∧
       s.carbonKg ≤ (placeSellOrder amt price now s).1.carbonKg) ∧
    (∀ order now, s.kwhTotal ≤ (buyOrder order now s).kwhTotal ∧
       s.carbonKg ≤ (buyOrder order now s).carbonKg) ∧
    (∀ p, s.kwhTotal ≤ (settle p s).kwhTotal ∧
       s.carbonKg ≤ (settle p s).carbonKg) ∧
    (∀ now, s.kwhTotal ≤ (generateGIC now s).1.kwhTotal ∧
       s.carbonKg ≤ (generateGIC now s).1.carbonKg) ∧
    (∀ name aadhaar gstin, s.kwhTotal ≤ (handleOnboard name aadhaar gstin s).kwhTotal ∧
       s.carbonKg ≤ (handleOnboard name aadhaar gstin s).carbonKg) ∧
    (s.kwhTotal ≤ (simulateSubsidy s).kwhTotal ∧
       s.carbonKg ≤ (simulateSubsidy s).carbonKg) ∧
    (s.kwhTotal ≤ (clearGics s).kwhTotal ∧ s.carbonKg ≤ (clearGics s).carbonKg) ∧
    ((resetMeter s).kwhTotal = 0 ∧ (resetMeter s).recBalance = 0 ∧
       (resetMeter s).carbonKg = 0) := by
  refine ⟨?_, ?_, ?_, ?_, ?_, ?_, ?_, ?_, ?_, rfl, rfl, rfl⟩
  · intro kwh hkwh
    exact ⟨le_refl _, mint_carbonKg_mono hc hkwh⟩
  · intro sample hsample
    have htick : 0 ≤ roundTo 3 sample := roundTo_nonneg _ hsample
    constructor
    · have hkwh2 : (meterTick sample s).kwhTotal =
          roundTo 3 (s.kwhTotal + roundTo 3 sample) := rfl
      rw [hkwh2, roundTo_add_left hk]
      exact le_add_of_nonneg_right (roundTo_nonneg _ htick)
    · exact mint_carbonKg_mono hc htick
  · intro amt price now
    have h2 := placeSellOrder_fixed_fields amt price now s
    rw [h2.1, h2.2.1]
    exact ⟨le_refl _, le_refl _⟩
  · intro order now
    exact ⟨le_refl _, le_refl _⟩
  · intro p
    have h1 := settleSellerLeg_kwh_carbon p s
    have h2 := settleBuyerLeg_kwh_carbon p (settleSellerLeg p s)
    constructor
    · rw [settle, h2.1, h1.1]
    · rw [settle, h2.2, h1.2]
  · intro now
    have h2 := generateGIC_fixed_fields now s
    rw [h2.1, h2.2.1]
    exact ⟨le_refl _, le_refl _⟩
  · intro name aadhaar gstin
    exact ⟨le_refl _, le_refl _⟩
  · exact ⟨le_refl _, le_refl _⟩
  · exact ⟨le_refl _, le_refl _⟩

theorem C8_witness :
    (∀ kwh, 0 ≤ kwh → sC8.kwhTotal ≤ (mintTokensForKwh kwh sC8).kwhTotal ∧
       sC8.carbonKg ≤ (mintTokensForKwh kwh sC8).carbonKg) ∧
    (∀ sample, 0 ≤ sample → sC8.kwhTotal ≤ (meterTick sample sC8).kwhTotal ∧
       sC8.carbonKg ≤ (meterTick sample sC8).carbonKg) ∧
    (∀ amt price now, sC8.kwhTotal ≤ (placeSellOrder amt price now sC8).1.kwhTotal ∧
       sC8.carbonKg ≤ (placeSellOrder amt price now sC8).1.carbonKg) ∧
    (∀ order now, sC8.kwhTotal ≤ (buyOrder order now sC8).kwhTotal ∧
       sC8.carbonKg ≤ (buyOrder order now sC8).carbonKg) ∧
    (∀ p, sC8.kwhTotal ≤ (settle p sC8).kwhTotal ∧
       sC8.carbonKg ≤ (settle p sC8).carbonKg) ∧
    (∀ now, sC8.kwhTotal ≤ (generateGIC now sC8).1.kwhTotal ∧
       sC8.carbonKg ≤ (generateGIC now sC8).1.carbonKg) ∧
    (∀ name aadhaar gstin, sC8.kwhTotal ≤ (handleOnboard name aadhaar gstin sC8).kwhTotal ∧
       sC8.carbonKg ≤ (handleOnboard name aadhaar gstin sC8).carbonKg) ∧
    (sC8.kwhTotal ≤ (simulateSubsidy sC8).kwhTotal ∧
       sC8.carbonKg ≤ (simulateSubsidy sC8).carbonKg) ∧
    (sC8.kwhTotal ≤ (clearGics sC8).kwhTotal ∧ sC8.carbonKg ≤ (clearGics sC8).carbonKg) ∧
    ((resetMeter sC8).kwhTotal = 0 ∧ (resetMeter sC8).recBalance = 0 ∧
       (resetMeter sC8).carbonKg = 0) :=
  C8_monotone_except_reset sC8
    (by norm_num [sC8, initialState, isDecimal, roundTo, round_eq])
    (by norm_num [sC8, initialState, isDecimal, roundTo, round_eq])

/-- C9: from any state whose REC balance is a non-negative exact 6-decimal
value, every operation that touches the balance — mint accumulation, a meter
tick, the sell-order reservation, a settlement credit, a purchase, and the
Reset button — leaves it non-negative and again an exact 6-decimal value; in
particular the `placeSellOrder` debit cannot overdraw, because the rounded
debit never exceeds the (already 6-decimal) balance. -/
theorem C9_recBalance_nonneg_preserved (s : LedgerState)
    (h0 : 0 ≤ s.recBalance) (hdec : isDecimal 6 s.recBalance) :
    (∀ kwh, 0 ≤ kwh → 0 ≤ (mintTokensForKwh kwh s).recBalance ∧
       isDecimal 6 (mintTokensForKwh kwh s).recBalance) ∧
    (∀ sample, 0 ≤ sample → 0 ≤ (meterTick sample s).recBalance ∧
       isDecimal 6 (meterTick sample s).recBalance) ∧
    (∀ amt price now, 0 ≤ (placeSellOrder amt price now s).1.recBalance ∧
       isDecimal 6 (placeSellOrder amt price now s).1.recBalance) ∧
    (∀ order now, 0 ≤ (buyOrder order now s).recBalance ∧
       isDecimal 6 (buyOrder order now s).recBalance) ∧
    (∀ p, 0 ≤ p.order.recAmount → 0 ≤ (settle p s).recBalance ∧
       isDecimal 6 (settle p s).recBalance) ∧
    (0 ≤ (resetMeter s).recBalance ∧ isDecimal 6 (resetMeter s).recBalance) := by
  have hmint : ∀ kwh : ℚ, 0 ≤ kwh → 0 ≤ (mintTokensForKwh kwh s).recBalance ∧
      isDecimal 6 (mintTokensForKwh kwh s).recBalance := by
    intro kwh hkwh
    constructor
    · apply roundTo_nonneg
      apply add_nonneg h0
      exact roundTo_nonneg _ (mul_nonneg hkwh (by norm_num))
    · exact isDecimal_roundTo _ _
  refine ⟨hmint, ?_, ?_, ?_, ?_, ?_⟩
  · intro sample hsample
    have htick : 0 ≤ roundTo 3 sample := roundTo_nonneg _ hsample
    constructor
    · show (0 : ℚ) ≤ roundTo 6 (s.recBalance + recDeltaForKwh (roundTo 3 sample))
      apply roundTo_nonneg
      apply add_nonneg h0
      exact roundTo_nonneg _ (mul_nonneg htick (by norm_num))
    · exact isDecimal_roundTo _ _
  · intro amt price now
    cases hu : s.user with
    | none =>
      have hEq : (placeSellOrder amt price now s).1.recBalance = s.recBalance := by
        simp [placeSellOrder, hu]
      rw [hEq]
      exact ⟨h0, hdec⟩
    | some u =>
      by_cases hc : amt ≤ 0 ∨ s.recBalance < amt
      · have hEq : (placeSellOrder amt price now s).1.recBalance = s.recBalance := by
          simp [placeSellOrder, hu, hc]
        rw [hEq]
        exact ⟨h0, hdec⟩
      · have hEq : (placeSellOrder amt price now s).1.recBalance =
            roundTo 6 (s.recBalance - roundTo 6 amt) := by
          simp [placeSellOrder, hu, hc]
        push_neg at hc
        have hres : roundTo 6 amt ≤ s.recBalance := by
          have h2 := roundTo_mono 6 hc.2
          rwa [hdec] at h2
        rw [hEq]
        constructor
        · apply roundTo_nonneg
          linarith
        · exact isDecimal_roundTo _ _
  · intro order now
    exact ⟨h0, hdec⟩
  · intro p hp
    have hs1 : (settleSellerLeg p s).recBalance = s.recBalance :=
      settleSellerLeg_recBalance p s
    show 0 ≤ (settleBuyerLeg p (settleSellerLeg p s)).recBalance ∧
      isDecimal 6 (settleBuyerLeg p (settleSellerLeg p s)).recBalance
    unfold settleBuyerLeg
    split
    · constructor
      · apply roundTo_nonneg
        rw [hs1]
        exact add_nonneg h0 hp
      · exact isDecimal_roundTo _ _
    · rw [hs1]
      exact ⟨h0, hdec⟩
  · exact ⟨le_refl 0, roundTo_zero 6⟩

theorem C9_witness :
    (∀ kwh, 0 ≤ kwh → 0 ≤ (mintTokensForKwh kwh sSeed).recBalance ∧
       isDecimal 6 (mintTokensForKwh kwh sSeed).recBalance) ∧
    (∀ sample, 0 ≤ sample → 0 ≤ (meterTick sample sSeed).recBalance ∧
       isDecimal 6 (meterTick sample sSeed).recBalance) ∧
    (∀ amt price now, 0 ≤ (placeSellOrder amt price now sSeed).1.recBalance ∧
       isDecimal 6 (placeSellOrder amt price now sSeed).1.recBalance) ∧
    (∀ order now, 0 ≤ (buyOrder order now sSeed).recBalance ∧
       isDecimal 6 (buyOrder order now sSeed).recBalance) ∧
    (∀ p, 0 ≤ p.order.recAmount → 0 ≤ (settle p sSeed).recBalance ∧
       isDecimal 6 (settle p sSeed).recBalance) ∧
    (0 ≤ (resetMeter sSeed).recBalance ∧ isDecimal 6 (resetMeter sSeed).recBalance) :=
  C9_recBalance_nonneg_preserved sSeed (le_refl 0) (roundTo_zero 6)
